import Mathlib

/-!
Verification development for the pharmaSafe Inspection/Release
Reconciliation Engine.

The definitions below are a shallow embedding of the release logic found in
the release-form screen (the `parseNumber`, `canConfirm`, `validateForm` and
`handleSubmit` functions) and of the inspection-intake screen's submit
handler.  JavaScript numbers are modelled as integers (`Int`): the only
numeric quantity this engine governs is a count of boxes.  JavaScript
primitives used by the source (`Number(s)`, `parseInt(s, 10)`, `String(n)`,
`trim`, `toUpperCase`, `toLowerCase`, whitespace removal) are modelled
explicitly below, restricted to optionally signed decimal integer notation
for string/number conversions.  The backing store is modelled as a keyed map
of inspection records plus an append-only list of release records (the
semantics of the store's `get`, `push` and `update` primitives on the paths
the code touches).
-/

namespace PharmaSafe

/-- A decimal digit rendered as a character, as JavaScript renders the
digits of a number. -/
def digitChar (d : Nat) : Char := Char.ofNat (48 + d)

/-- Little-endian decimal digits of `n`, computed with explicit fuel so the
definition is structurally recursive (the fuel `n` itself always
suffices). -/
def natDigitsRev : Nat → Nat → List Nat
  | 0, _ => []
  | fuel + 1, n => if n = 0 then [] else n % 10 :: natDigitsRev fuel (n / 10)

/-- Model of JavaScript's decimal rendering of a nonnegative integer
(`String(n)` for `n ≥ 0`). -/
def natToString (n : Nat) : String :=
  if n = 0 then "0" else String.mk (((natDigitsRev n n).map digitChar).reverse)

/-- Model of JavaScript's `String(x)` for an integer `x`. -/
def intToString (x : Int) : String :=
  if x < 0 then String.mk ('-' :: (natToString x.natAbs).toList) else natToString x.toNat

/-- Numeric value of a big-endian list of digit characters. -/
def digitsVal (cs : List Char) : Nat :=
  cs.foldl (fun a c => a * 10 + (c.toNat - 48)) 0

/-- Parse a nonempty all-digit character list; `none` otherwise. -/
def parseDigits (cs : List Char) : Option Nat :=
  if cs ≠ [] ∧ cs.all Char.isDigit then some (digitsVal cs) else none

/-- Remove leading and trailing whitespace from a character list. -/
def trimList (cs : List Char) : List Char :=
  ((cs.dropWhile Char.isWhitespace).reverse.dropWhile Char.isWhitespace).reverse

/-- Model of JavaScript's `trim`: remove leading and trailing whitespace. -/
def jsTrim (s : String) : String := String.mk (trimList s.toList)

/-- Model of JavaScript's `Number(s)` on a string, restricted to optionally
signed decimal integer notation: `some v` when `Number(s)` is the finite
integer `v` (the empty or all-whitespace string converts to `0`), `none`
when `Number(s)` is `NaN`.  Fractional, exponent and hexadecimal notations
are outside the model. -/
def jsNumberOpt (s : String) : Option Int :=
  let cs := trimList s.toList
  if cs = [] then some 0
  else if cs.head? = some '+' then (parseDigits cs.tail).map (fun n => (n : Int))
  else if cs.head? = some '-' then (parseDigits cs.tail).map (fun n => -(n : Int))
  else (parseDigits cs).map (fun n => (n : Int))

/-- Model of JavaScript's `parseInt(s, 10)`: skip leading whitespace, an
optional sign, then the longest digit run; `none` when that run is empty
(`NaN`). -/
def jsParseInt (s : String) : Option Int :=
  let cs := s.toList.dropWhile Char.isWhitespace
  let signed : Int × List Char :=
    match cs with
    | '+' :: t => (1, t)
    | '-' :: t => (-1, t)
    | t => (1, t)
  let ds := signed.2.takeWhile Char.isDigit
  if ds = [] then none
  else some (signed.1 * (digitsVal ds : Int))

/-- Model of `s.replace(/\s+/g, '')`: remove every whitespace character. -/
def stripWs (s : String) : String :=
  String.mk (s.toList.filter (fun c => !c.isWhitespace))

/-- Model of JavaScript's `toUpperCase` on the ASCII strings this screen
compares. -/
def jsToUpper (s : String) : String := String.mk (s.toList.map Char.toUpper)

/-- Model of JavaScript's `toLowerCase` on the ASCII strings this screen
compares. -/
def jsToLower (s : String) : String := String.mk (s.toList.map Char.toLower)

/-- A JavaScript value as it can sit in the store's `boxesImpounded` slot:
a finite (integer-valued) number, a non-finite number, a string, or a value
of any other runtime type. -/
inductive JSVal where
  | num (x : Int)
  | nonFiniteNum
  | str (raw : String)
  | other
  deriving DecidableEq, Repr

/-- Source `parseNumber` (release screen): a finite number is returned as
is, a string is converted with `Number` and kept when finite, and every
other input (missing field, non-finite number, unparsable string, other
type) yields `0`. -/
def parseNumber : Option JSVal → Int
  | some (.num x) => x
  | some .nonFiniteNum => 0
  | some (.str raw) => (jsNumberOpt raw).getD 0
  | some .other => 0
  | none => 0

/-- Source `typeof current.boxesImpounded === 'string'`. -/
def isStringVal : Option JSVal → Bool
  | some (.str _) => true
  | _ => false

/-- An inspection record as the release screen reads and patches it.  The
four leading fields are the source's `Inspection` type; the remaining
fields are the ones the release path's `update` call writes.  Each field is
optional because the store is schemaless. -/
structure Inspection where
  boxesImpounded : Option JSVal := none
  status : Option String := none
  serialNumber : Option String := none
  drugshopName : Option String := none
  releasedAt : Option Int := none
  releasedBy : Option String := none
  releasedByEmail : Option String := none
  releasedByName : Option String := none
  lastReleaseNote : Option String := none
  lastReleaseCount : Option Int := none
  deriving DecidableEq, Repr

/-- The release-record payload pushed under `releases/{inspectionId}`. -/
structure ReleasePayload where
  inspectionId : String
  date : String
  clientName : String
  telephone : String
  releasedBy : String
  comment : String
  boxesReleased : Int
  createdAt : String
  createdByUid : String
  createdByEmail : Option String
  createdByName : Option String
  deriving DecidableEq, Repr

/-- The backing store: keyed inspection records plus the append-only
release log (a push under `releases/{id}` is an append; the pushed record
carries its inspection id). -/
structure Store where
  inspections : String → Option Inspection
  releases : List ReleasePayload

/-- The release form's fields (the `Date` field is carried as its ISO
rendering; a `Date` object is always truthy, so the form's date check
always passes). -/
structure Form where
  dateIso : String
  clientName : String
  telephone : String
  releasedBy : String
  comment : String
  boxesReleased : String
  deriving DecidableEq, Repr

/-- The confirmation-gate inputs: the two acknowledgement checkboxes and
the typed confirmation text. -/
structure GateState where
  ack1 : Bool
  ack2 : Bool
  confirmText : String
  deriving DecidableEq, Repr

/-- Ambient identity and clock values the handler reads
(`auth.currentUser`, `new Date()`, `Date.now()`). -/
structure Env where
  uid : Option String
  email : Option String
  displayName : Option String
  nowIso : String
  nowMs : Int
  deriving DecidableEq, Repr

/-- Transport outcome of one SMS delivery attempt: `ok` for a success
response, `fail` for a non-success response, timeout or thrown error. -/
inductive SmsResult where
  | ok
  | fail
  deriving DecidableEq, Repr

/-- Fault injection for the three store accesses of the submit handler;
a `true` flag makes the corresponding awaited call throw (transient store
unavailability), which the handler's catch-all turns into the generic
failure alert. -/
structure Faults where
  getFails : Bool
  pushFails : Bool
  updateFails : Bool
  deriving DecidableEq, Repr

/-- No injected store faults: every store access succeeds. -/
def noFaults : Faults := ⟨false, false, false⟩

/-- Source `validateTelephone`: the regex `^(\+?\d{7,15})$` applied to the
phone with whitespace removed. -/
def validTelephone (phone : String) : Bool :=
  let p := (stripWs phone).toList
  let ds := match p with
    | '+' :: t => t
    | t => t
  decide (7 ≤ ds.length) && decide (ds.length ≤ 15) && ds.all Char.isDigit

/-- Source `validateForm`: client name, telephone (well-formed), releasing
party and a positive integer box count are required, as is the inspection
id routed into the screen. -/
def validateForm (form : Form) (inspectionId : String) : Bool :=
  ((jsTrim form.clientName) != "") &&
  ((jsTrim form.telephone) != "") && validTelephone form.telephone &&
  ((jsTrim form.releasedBy) != "") &&
  (form.boxesReleased != "") &&
  (match jsParseInt form.boxesReleased with
    | some n => decide (0 < n)
    | none => false) &&
  (inspectionId != "")

/-- Source `canConfirm`: both acknowledgements plus a typed text that,
after trimming, uppercases to the literal `RELEASE` or matches the
inspection's (trimmed, non-empty) serial number case-insensitively.  The
serial comes from the screen's earlier state read of the inspection, which
may be absent. -/
def canConfirm (ack1 ack2 : Bool) (confirmText : String) (inspState : Option Inspection) : Bool :=
  let typed := jsTrim confirmText
  let serial := jsTrim ((inspState.bind Inspection.serialNumber).getD "")
  let okTyped := (jsToUpper typed == "RELEASE") ||
    ((serial != "") && (jsToLower typed == jsToLower serial))
  ack1 && ack2 && okTyped

/-- The release payload built by the submit handler. -/
def mkReleasePayload (id : String) (form : Form) (count : Int) (env : Env) : ReleasePayload where
  inspectionId := id
  date := form.dateIso
  clientName := (jsTrim form.clientName)
  telephone := stripWs form.telephone
  releasedBy := (jsTrim form.releasedBy)
  comment := (jsTrim form.comment)
  boxesReleased := count
  createdAt := env.nowIso
  createdByUid := env.uid.getD "anonymous"
  createdByEmail := env.email
  createdByName := env.displayName

/-- The field patch the submit handler's `update` call applies to the
inspection record: the remaining quantity written back in the snapshot's
representation (string or number), the derived status, and the release
stamps.  A `none` field value models the `?? null` fields (`update` with
`null` clears the slot). -/
def releasePatch (wasString : Bool) (remaining count : Int) (form : Form) (env : Env)
    (base : Inspection) : Inspection :=
  { base with
    boxesImpounded := some (if wasString then .str (intToString remaining) else .num remaining)
    status := some (if remaining = 0 then "Completed" else "Pending Review")
    releasedAt := some env.nowMs
    releasedBy := some (env.uid.getD "anonymous")
    releasedByEmail := env.email
    releasedByName := env.displayName
    lastReleaseNote := if (jsTrim form.comment) = "" then none else some (jsTrim form.comment)
    lastReleaseCount := some count }

/-- The store's `update` primitive on an inspection path: merge a field
patch into the record currently at the key (creating it when absent). -/
def storeUpdate (s : Store) (id : String) (patch : Inspection → Inspection) : Store :=
  { s with inspections := fun k => if k = id then some (patch ((s.inspections k).getD {})) else s.inspections k }

/-- The store's `push` primitive on the release log: append the payload. -/
def storePush (s : Store) (p : ReleasePayload) : Store :=
  { s with releases := s.releases ++ [p] }

/-- The alert text used when the SMS attempt succeeds. -/
def smsOkMsg : String := "Release submitted and SMS sent to the owner."

/-- The alert text used when the SMS attempt fails: the release stays
committed and the operator is told to notify the owner manually. -/
def smsFailMsg : String := "Release submitted. SMS delivery failed, please notify the owner manually."

/-- Outcome the operator is shown by one run of the release submit
handler. -/
inductive SubmitResult where
  | invalidForm
  | confirmationRequired
  | notFound
  | overRelease (requested available : Int)
  | storeError
  | success (smsMsg : String) (nextStatus : String)
  deriving DecidableEq, Repr

/-- Source `handleSubmit` of the release screen, sequentialised over the
modelled store: validate the form, check the confirmation gate, re-read the
inspection fresh, reject a missing inspection or an over-release without
writing, otherwise push the release record and then patch the inspection,
and finally attempt the SMS (whose failure is caught and only changes the
alert text).  `flt` injects a throw at each awaited store call; the
handler's catch-all converts a throw into the generic failure alert,
keeping whatever writes already happened.  Inside the commit path the
re-parsed count `(jsParseInt form.boxesReleased).getD 0` is the same value
`validateForm` already parsed, so the `getD` default is never the value
used. -/
def handleSubmit (flt : Faults) (form : Form) (gate : GateState) (inspState : Option Inspection)
    (s : Store) (id : String) (env : Env) (sms : SmsResult) : Store × SubmitResult :=
  if !validateForm form id then (s, .invalidForm)
  else if !canConfirm gate.ack1 gate.ack2 gate.confirmText inspState then (s, .confirmationRequired)
  else if flt.getFails then (s, .storeError)
  else
    match s.inspections id with
    | none => (s, .notFound)
    | some current =>
      let currentBoxes := parseNumber current.boxesImpounded
      let releaseCount := (jsParseInt form.boxesReleased).getD 0
      if releaseCount > currentBoxes then (s, .overRelease releaseCount currentBoxes)
      else
        let remaining := max 0 (currentBoxes - releaseCount)
        if flt.pushFails then (s, .storeError)
        else
          let s1 := storePush s (mkReleasePayload id form releaseCount env)
          if flt.updateFails then (s1, .storeError)
          else
            let s2 := storeUpdate s1 id
              (releasePatch (isStringVal current.boxesImpounded) remaining releaseCount form env)
            let nextStatus := if remaining = 0 then "Completed" else "Pending Review"
            (s2, .success (match sms with | .ok => smsOkMsg | .fail => smsFailMsg) nextStatus)

/-! ### Interleaving model of concurrent release submissions

The commit section of `handleSubmit` (after the gate) suspends at each
awaited store call: the `get`, the `push` and the `update`.  Two operators
submitting releases against the same inspection interleave at exactly these
points.  `opStep` is that commit section split at its await points; the code
between two awaits runs atomically (single-threaded event loop). -/

/-- Terminal outcome of one commit-section run. -/
inductive OpOutcome where
  | notFound
  | overRelease (requested available : Int)
  | success (remaining : Int) (nextStatus : String)
  deriving DecidableEq, Repr

/-- Progress of one in-flight release submission: about to `get`; validated
and about to `push` (carrying the snapshot it read and the values it
computed from it); about to `update`; or finished. -/
inductive OpState where
  | ready
  | toPush (current : Inspection) (releaseCount remaining : Int)
  | toUpdate (current : Inspection) (releaseCount remaining : Int)
  | finished (r : OpOutcome)
  deriving DecidableEq, Repr

/-- The static inputs of one release submission. -/
structure OpCtx where
  id : String
  form : Form
  env : Env

/-- One atomic segment of the commit section of `handleSubmit`: the fresh
read plus validation (rejecting without writing), the release-record push,
or the inspection update computed from the snapshot taken at read time. -/
def opStep (ctx : OpCtx) : Store × OpState → Store × OpState
  | (s, .ready) =>
    match s.inspections ctx.id with
    | none => (s, .finished .notFound)
    | some current =>
      let currentBoxes := parseNumber current.boxesImpounded
      let releaseCount := (jsParseInt ctx.form.boxesReleased).getD 0
      if releaseCount > currentBoxes then
        (s, .finished (.overRelease releaseCount currentBoxes))
      else
        (s, .toPush current releaseCount (max 0 (currentBoxes - releaseCount)))
  | (s, .toPush current count remaining) =>
      (storePush s (mkReleasePayload ctx.id ctx.form count ctx.env),
       .toUpdate current count remaining)
  | (s, .toUpdate current count remaining) =>
      (storeUpdate s ctx.id
        (releasePatch (isStringVal current.boxesImpounded) remaining count ctx.form ctx.env),
       .finished (.success remaining (if remaining = 0 then "Completed" else "Pending Review")))
  | (s, .finished r) => (s, .finished r)

/-- Two in-flight release submissions sharing one store. -/
structure TwoOps where
  store : Store
  a : OpState
  b : OpState

/-- Advance submission `a` (when `turn` is `true`) or `b` by one atomic
segment. -/
def sysStep (ca cb : OpCtx) (t : TwoOps) (turn : Bool) : TwoOps :=
  if turn then
    let r := opStep ca (t.store, t.a)
    { store := r.1, a := r.2, b := t.b }
  else
    let r := opStep cb (t.store, t.b)
    { store := r.1, a := t.a, b := r.2 }

/-- Run a schedule: each entry says which of the two submissions takes the
next atomic segment. -/
def runSchedule (ca cb : OpCtx) (sched : List Bool) (t : TwoOps) : TwoOps :=
  sched.foldl (sysStep ca cb) t

/-! ### Inspection-intake submit handler (index screen)

The intake screen creates the inspection record with the audit flags
`smsAttempted`/`smsSuccess` hardcoded to `false`, then attempts the SMS.
The code comment announces "Patch audit flags (fire-and-forget)" but the
statement under it is an unrelated no-op `fetch`; no store write touches
the flags after the attempt, on success or on failure. -/

/-- The inspection object the intake screen pushes (location omitted: it is
the external geolocation collaborator and never touched afterwards). -/
structure IntakeData where
  date : String
  serialNumber : String
  drugshopName : String
  drugshopContactPhones : String
  boxesImpounded : String
  impoundedBy : String
  status : String
  createdAt : String
  createdBy : String
  smsAttempted : Bool
  smsSuccess : Bool
  deriving DecidableEq, Repr

/-- The intake form fields the submit handler reads. -/
structure IntakeForm where
  dateIso : String
  serialNumber : String
  drugshopName : String
  drugshopContactPhones : String
  boxesImpounded : String
  impoundedBy : String
  sendSms : Bool
  deriving DecidableEq, Repr

/-- Source `Number(formData.boxesImpounded || '0') || 0`: an empty field
counts as `'0'`, and a `NaN` conversion collapses to `0`. -/
def jsNumberOr0 (s : String) : Int :=
  (jsNumberOpt (if s = "" then "0" else s)).getD 0

/-- Source `handleSubmit` of the intake screen, from the push onward (form
validation precedes and touches neither the record nor the flags): the
record is pushed with both audit flags `false`, the SMS is attempted when
requested, and the handler returns the stored record together with the
alert text.  No code path patches the audit flags after the attempt. -/
def intakeHandleSubmit (form : IntakeForm) (env : Env) (sms : SmsResult) : IntakeData × String :=
  let data : IntakeData :=
    { date := form.dateIso
      serialNumber := (jsTrim form.serialNumber)
      drugshopName := (jsTrim form.drugshopName)
      drugshopContactPhones := (jsTrim form.drugshopContactPhones)
      boxesImpounded := (jsTrim form.boxesImpounded)
      impoundedBy := (jsTrim form.impoundedBy)
      status := "submitted"
      createdAt := env.nowIso
      createdBy := env.email.getD "anonymous"
      smsAttempted := false
      smsSuccess := false }
  let boxesNum := jsNumberOr0 form.boxesImpounded
  if form.sendSms && decide (0 < boxesNum) && ((jsTrim form.drugshopContactPhones) != "") then
    match sms with
    | .ok => (data, "Report submitted and SMS sent.")
    | .fail => (data, "Report submitted. SMS delivery failed, please retry later.")
  else (data, "Inspection report submitted!")

/-! ### Round-trip fidelity of the modelled string/number conversions

The release path writes the remaining quantity back as `String(remaining)`
when the stored value was a string; these lemmas show that the next
`parseNumber` read recovers exactly that quantity. -/

/-- The characters produced by `digitChar` on an actual digit are digit
characters, are not whitespace, are not sign characters, and decode back
to the digit. -/
theorem digitChar_facts : ∀ d, d < 10 →
    (digitChar d).isDigit = true ∧ (digitChar d).isWhitespace = false ∧
    digitChar d ≠ '+' ∧ digitChar d ≠ '-' ∧ (digitChar d).toNat = 48 + d := by
  decide

/-- Every entry of `natDigitsRev` is an actual decimal digit. -/
theorem natDigitsRev_lt10 : ∀ fuel n d, d ∈ natDigitsRev fuel n → d < 10 := by
  intro fuel
  induction fuel with
  | zero => intro n d h; simp [natDigitsRev] at h
  | succ fuel ih =>
    intro n d h
    by_cases hn : n = 0
    · simp [natDigitsRev, hn] at h
    · simp only [natDigitsRev, if_neg hn, List.mem_cons] at h
      rcases h with h | h
      · subst h; exact Nat.mod_lt _ (by norm_num)
      · exact ih _ _ h

/-- Folding the decoder over the rendered digits of `n` (little-endian)
recovers `n`. -/
theorem foldr_natDigitsRev (fuel : Nat) : ∀ n, n ≤ fuel →
    ((natDigitsRev fuel n).map digitChar).foldr (fun c a => a * 10 + (c.toNat - 48)) 0 = n := by
  induction fuel with
  | zero => intro n h; interval_cases n; rfl
  | succ fuel ih =>
    intro n h
    by_cases hn : n = 0
    · simp [natDigitsRev, hn]
    · have hd : n % 10 < 10 := Nat.mod_lt _ (by norm_num)
      have hrec : n / 10 ≤ fuel := by
        have : n / 10 < n := Nat.div_lt_self (Nat.pos_of_ne_zero hn) (by norm_num)
        omega
      simp only [natDigitsRev, if_neg hn, List.map_cons, List.foldr_cons, ih _ hrec,
        (digitChar_facts _ hd).2.2.2.2]
      omega

/-- Decoding the big-endian rendering of `n` recovers `n`. -/
theorem digitsVal_natDigitsRev (n : Nat) :
    digitsVal (((natDigitsRev n n).map digitChar).reverse) = n := by
  unfold digitsVal
  rw [List.foldl_reverse]
  exact foldr_natDigitsRev n n le_rfl

/-- `dropWhile` of the whitespace test is the identity on a list with no
whitespace (only the head matters). -/
theorem dropWhile_ws_eq (cs : List Char) (h : ∀ c ∈ cs, c.isWhitespace = false) :
    cs.dropWhile Char.isWhitespace = cs := by
  cases cs with
  | nil => rfl
  | cons a t =>
    rw [List.dropWhile_cons, h a (List.mem_cons_self a t)]
    simp

/-- Trimming a list with no whitespace is the identity. -/
theorem trimList_eq_self (cs : List Char) (h : ∀ c ∈ cs, c.isWhitespace = false) :
    trimList cs = cs := by
  unfold trimList
  rw [dropWhile_ws_eq cs h,
    dropWhile_ws_eq cs.reverse (fun c hc => h c (List.mem_reverse.mp hc)),
    List.reverse_reverse]

/-- Modelled `Number` inverts the modelled decimal rendering of a
nonnegative integer. -/
theorem jsNumberOpt_natToString (m : Nat) : jsNumberOpt (natToString m) = some (m : Int) := by
  by_cases hm : m = 0
  · subst hm; decide
  · have hmem : ∀ c ∈ ((natDigitsRev m m).map digitChar).reverse,
        c.isDigit = true ∧ c.isWhitespace = false ∧ c ≠ '+' ∧ c ≠ '-' := by
      intro c hc
      rw [List.mem_reverse, List.mem_map] at hc
      obtain ⟨d, hd, rfl⟩ := hc
      have h10 := natDigitsRev_lt10 m m d hd
      exact ⟨(digitChar_facts d h10).1, (digitChar_facts d h10).2.1,
        (digitChar_facts d h10).2.2.1, (digitChar_facts d h10).2.2.2.1⟩
    have hne : natDigitsRev m m ≠ [] := by
      obtain ⟨k, rfl⟩ := Nat.exists_eq_succ_of_ne_zero hm
      simp [natDigitsRev]
    have hcs : (natToString m).toList = ((natDigitsRev m m).map digitChar).reverse := by
      unfold natToString
      rw [if_neg hm]
      rfl
    unfold jsNumberOpt
    rw [hcs, trimList_eq_self _ (fun c hc => (hmem c hc).2.1)]
    have hnil : ((natDigitsRev m m).map digitChar).reverse ≠ [] := by
      simpa using hne
    obtain ⟨c, t, hct⟩ := List.exists_cons_of_ne_nil hnil
    have hcmem : c ∈ ((natDigitsRev m m).map digitChar).reverse := by
      rw [hct]; exact List.mem_cons_self c t
    rw [hct]
    have hc := hmem c hcmem
    simp only [List.head?_cons]
    rw [if_neg (by simp [hct]), if_neg (by simp [hc.2.2.1]), if_neg (by simp [hc.2.2.2])]
    unfold parseDigits
    rw [if_pos ⟨by simp, by
      rw [← hct]
      exact List.all_eq_true.mpr fun c hc => (hmem c hc).1⟩]
    rw [← hct, digitsVal_natDigitsRev]
    simp

/-- A quantity written back as a string re-reads as itself: the source's
`parseNumber` applied to `String(r)` for `r ≥ 0` yields `r`. -/
theorem parseNumber_str_intToString (r : Int) (h : 0 ≤ r) :
    parseNumber (some (.str (intToString r))) = r := by
  have h1 : intToString r = natToString r.toNat := by
    unfold intToString
    rw [if_neg (by omega)]
  have h2 : parseNumber (some (.str (intToString r))) = (jsNumberOpt (intToString r)).getD 0 := rfl
  rw [h2, h1, jsNumberOpt_natToString]
  simp [Int.toNat_of_nonneg h]

/-! ### Concrete fixtures used by the claim theorems and witnesses -/

/-- Ambient identity/clock fixture. -/
def envW : Env :=
  { uid := some ("u1"), email := some ("off@example.test"), displayName := none,
    nowIso := "2026-01-02T03:04:05.000Z", nowMs := 100 }

/-- A release form that passes `validateForm` with a given box count. -/
def formOf (boxes : String) : Form :=
  { dateIso := "2026-01-02T03:04:05.000Z", clientName := "Ann", telephone := "0700123456",
    releasedBy := "Off", comment := "", boxesReleased := boxes }

/-- A satisfied confirmation gate (typed literal `RELEASE`). -/
def gateW : GateState := { ack1 := true, ack2 := true, confirmText := "RELEASE" }

/-- An inspection holding a numeric quantity. -/
def inspNum (n : Int) : Inspection :=
  { boxesImpounded := some (.num n), status := some ("Submitted"),
    serialNumber := some ("SN-9"), drugshopName := some ("Shop") }

/-- An inspection holding a numeric-string quantity. -/
def inspStr (raw : String) : Inspection :=
  { boxesImpounded := some (.str raw), status := some ("Submitted"),
    serialNumber := some ("SN-9"), drugshopName := some ("Shop") }

/-- A one-inspection store keyed at `"i1"`, empty release log. -/
def storeOf (i : Inspection) : Store :=
  { inspections := fun k => if k = "i1" then some i else none, releases := [] }

/-- A store with no inspections. -/
def storeEmpty : Store := { inspections := fun _ => none, releases := [] }

/-! ### Shared reduction lemma for the fault-free commit path -/

/-- When the form and gate pass, the inspection exists, and the requested
count does not exceed the freshly parsed quantity, the fault-free handler
commits: it appends exactly the release payload and patches the inspection
with the exact difference, reporting success with the SMS-dependent alert
text. -/
theorem handleSubmit_commit (form : Form) (gate : GateState) (inspState : Option Inspection)
    (s : Store) (id : String) (env : Env) (sms : SmsResult) (insp : Inspection) (n : Int)
    (hF : validateForm form id = true)
    (hG : canConfirm gate.ack1 gate.ack2 gate.confirmText inspState = true)
    (hI : s.inspections id = some insp)
    (hP : jsParseInt form.boxesReleased = some n)
    (hLe : n ≤ parseNumber insp.boxesImpounded) :
    handleSubmit noFaults form gate inspState s id env sms =
      (storeUpdate (storePush s (mkReleasePayload id form n env)) id
        (releasePatch (isStringVal insp.boxesImpounded)
          (parseNumber insp.boxesImpounded - n) n form env),
       .success (match sms with | .ok => smsOkMsg | .fail => smsFailMsg)
         (if parseNumber insp.boxesImpounded - n = 0 then "Completed" else "Pending Review")) := by
  have hmax : max 0 (parseNumber insp.boxesImpounded - n) = parseNumber insp.boxesImpounded - n :=
    max_eq_right (by omega)
  unfold handleSubmit
  rw [hF, hG, hI]
  simp only [noFaults, Bool.not_true, Bool.false_eq_true, if_false, hP, Option.getD_some]
  rw [if_neg (by omega), hmax]

/-! ### Claim theorems -/

/-- Claim C3: for every release whose requested quantity is a positive
integer not exceeding the freshly read current quantity, the operation
succeeds with remaining exactly `currentQuantity - requestedQuantity`, and
the stored status is set to `Completed` when the remainder is `0` and to
the pending-review status otherwise (the source renders the spec's
`PendingReview` as the string `"Pending Review"`). -/
theorem c3_valid_release_success (form : Form) (gate : GateState) (inspState : Option Inspection)
    (s : Store) (id : String) (env : Env) (sms : SmsResult) (insp : Inspection) (n : Int)
    (hF : validateForm form id = true)
    (hG : canConfirm gate.ack1 gate.ack2 gate.confirmText inspState = true)
    (hI : s.inspections id = some insp)
    (hP : jsParseInt form.boxesReleased = some n)
    (hPos : 0 < n)
    (hLe : n ≤ parseNumber insp.boxesImpounded) :
    (handleSubmit noFaults form gate inspState s id env sms).2 =
      .success (match sms with | .ok => smsOkMsg | .fail => smsFailMsg)
        (if parseNumber insp.boxesImpounded - n = 0 then "Completed" else "Pending Review") ∧
    parseNumber (((handleSubmit noFaults form gate inspState s id env sms).1.inspections id).bind
        Inspection.boxesImpounded) = parseNumber insp.boxesImpounded - n ∧
    ((handleSubmit noFaults form gate inspState s id env sms).1.inspections id).bind
        Inspection.status =
      some (if parseNumber insp.boxesImpounded - n = 0 then "Completed" else "Pending Review") := by
  rw [handleSubmit_commit form gate inspState s id env sms insp n hF hG hI hP hLe]
  refine ⟨rfl, ?_, ?_⟩
  · simp only [storeUpdate, storePush, if_pos rfl, hI, Option.getD_some, Option.bind_some,
      releasePatch]
    by_cases hws : isStringVal insp.boxesImpounded
    · rw [if_pos hws]
      exact parseNumber_str_intToString _ (by omega)
    · rw [if_neg hws]
      rfl
  · simp [storeUpdate, storePush, hI, releasePatch]

/-- Witness for claim C3 at a concrete input: releasing 5 of 20 succeeds
with remainder 15 and pending-review status. -/
theorem c3_valid_release_success_witness :
    validateForm (formOf ("5")) ("i1") = true ∧
    jsParseInt (formOf ("5")).boxesReleased = some 5 ∧
    (handleSubmit noFaults (formOf ("5")) gateW (some (inspNum 20)) (storeOf (inspNum 20))
        ("i1") envW .ok).2 = .success smsOkMsg ("Pending Review") ∧
    parseNumber (((handleSubmit noFaults (formOf ("5")) gateW (some (inspNum 20))
        (storeOf (inspNum 20)) ("i1") envW .ok).1.inspections ("i1")).bind
        Inspection.boxesImpounded) = 15 := by
  have h := c3_valid_release_success (formOf ("5")) gateW (some (inspNum 20))
    (storeOf (inspNum 20)) ("i1") envW .ok (inspNum 20) 5
    (by decide) (by decide) (by decide) (by decide) (by decide) (by decide)
  exact ⟨by decide, by decide, h.1, h.2.1⟩

/-- Claim C4: when the freshly parsed available quantity is nonnegative
and the requested quantity exceeds it, the attempt is rejected as an
over-release carrying both values, and the store is returned unchanged (no
record appended, no field updated). -/
theorem c4_over_release_rejected (form : Form) (gate : GateState) (inspState : Option Inspection)
    (s : Store) (id : String) (env : Env) (sms : SmsResult) (insp : Inspection) (n : Int)
    (hF : validateForm form id = true)
    (hG : canConfirm gate.ack1 gate.ack2 gate.confirmText inspState = true)
    (hI : s.inspections id = some insp)
    (hP : jsParseInt form.boxesReleased = some n)
    (hAvail : 0 ≤ parseNumber insp.boxesImpounded)
    (hGt : parseNumber insp.boxesImpounded < n) :
    handleSubmit noFaults form gate inspState s id env sms =
      (s, .overRelease n (parseNumber insp.boxesImpounded)) := by
  unfold handleSubmit
  rw [hF, hG, hI]
  simp only [noFaults, Bool.not_true, Bool.false_eq_true, if_false, hP, Option.getD_some]
  rw [if_pos (by omega)]

/-- Witness for claim C4 at a concrete input: releasing 4 of 3 is rejected
carrying requested 4 and available 3, with the store unchanged. -/
theorem c4_over_release_rejected_witness :
    0 ≤ parseNumber (inspNum 3).boxesImpounded ∧
    parseNumber (inspNum 3).boxesImpounded < 4 ∧
    handleSubmit noFaults (formOf ("4")) gateW (some (inspNum 3)) (storeOf (inspNum 3))
        ("i1") envW .ok = (storeOf (inspNum 3), .overRelease 4 3) := by
  have h := c4_over_release_rejected (formOf ("4")) gateW (some (inspNum 3)) (storeOf (inspNum 3))
    ("i1") envW .ok (inspNum 3) 4 (by decide) (by decide) (by decide) (by decide) (by decide)
    (by decide)
  exact ⟨by decide, by decide, h⟩

/-- Claim C8: when the fresh read at submission time finds no inspection,
the attempt fails as not-found and the store is returned unchanged. -/
theorem c8_not_found_no_write (form : Form) (gate : GateState) (inspState : Option Inspection)
    (s : Store) (id : String) (env : Env) (sms : SmsResult)
    (hF : validateForm form id = true)
    (hG : canConfirm gate.ack1 gate.ack2 gate.confirmText inspState = true)
    (hI : s.inspections id = none) :
    handleSubmit noFaults form gate inspState s id env sms = (s, .notFound) := by
  unfold handleSubmit
  rw [hF, hG, hI]
  simp [noFaults]

/-- Witness for claim C8 at a concrete input: submitting against an empty
store fails as not-found with no write. -/
theorem c8_not_found_no_write_witness :
    storeEmpty.inspections ("i1") = none ∧
    handleSubmit noFaults (formOf ("5")) gateW (some (inspNum 20)) storeEmpty ("i1") envW .ok =
      (storeEmpty, .notFound) := by
  have h := c8_not_found_no_write (formOf ("5")) gateW (some (inspNum 20)) storeEmpty ("i1")
    envW .ok (by decide) (by decide) rfl
  exact ⟨rfl, h⟩

/-- Claim C10's classification of a stored quantity the release path cannot
read as a finite number: a missing slot, a non-finite number, a string that
does not convert to a finite number, or a value of another type. -/
def unparsableQty : Option JSVal → Bool
  | none => true
  | some .nonFiniteNum => true
  | some (.str raw) => (jsNumberOpt raw).isNone
  | some .other => true
  | some (.num _) => false

/-- A stored quantity in claim C10's classification parses to `0`. -/
theorem parseNumber_of_unparsable (v : Option JSVal) (h : unparsableQty v = true) :
    parseNumber v = 0 := by
  match v with
  | none => rfl
  | some .nonFiniteNum => rfl
  | some .other => rfl
  | some (.num _) => simp [unparsableQty] at h
  | some (.str raw) =>
    have : jsNumberOpt raw = none := Option.isNone_iff_eq_none.mp h
    simp [parseNumber, this]

/-- Claim C10 (implicit): when the stored `boxesImpounded` is missing or
does not parse to a finite number, the release path treats the available
quantity as `0`, so every positive request is rejected as an over-release
with available `0` and the store is returned unchanged. -/
theorem c10_unparsable_treated_as_zero (form : Form) (gate : GateState)
    (inspState : Option Inspection) (s : Store) (id : String) (env : Env) (sms : SmsResult)
    (insp : Inspection) (n : Int)
    (hF : validateForm form id = true)
    (hG : canConfirm gate.ack1 gate.ack2 gate.confirmText inspState = true)
    (hI : s.inspections id = some insp)
    (hU : unparsableQty insp.boxesImpounded = true)
    (hP : jsParseInt form.boxesReleased = some n)
    (hPos : 0 < n) :
    parseNumber insp.boxesImpounded = 0 ∧
    handleSubmit noFaults form gate inspState s id env sms = (s, .overRelease n 0) := by
  have h0 := parseNumber_of_unparsable _ hU
  refine ⟨h0, ?_⟩
  unfold handleSubmit
  rw [hF, hG, hI]
  simp only [noFaults, Bool.not_true, Bool.false_eq_true, if_false, hP, Option.getD_some, h0]
  rw [if_pos (by omega)]

/-- Witness for claim C10 at a concrete input: against a stored quantity
`"abc"`, releasing 5 is rejected as an over-release with available `0` and
no write. -/
theorem c10_unparsable_treated_as_zero_witness :
    unparsableQty (inspStr ("abc")).boxesImpounded = true ∧
    parseNumber (inspStr ("abc")).boxesImpounded = 0 ∧
    handleSubmit noFaults (formOf ("5")) gateW (some (inspStr ("abc")))
        (storeOf (inspStr ("abc"))) ("i1") envW .ok =
      (storeOf (inspStr ("abc")), .overRelease 5 0) := by
  have h := c10_unparsable_treated_as_zero (formOf ("5")) gateW (some (inspStr ("abc")))
    (storeOf (inspStr ("abc"))) ("i1") envW .ok (inspStr ("abc")) 5
    (by decide) (by decide) (by decide) (by decide) (by decide) (by decide)
  exact ⟨by decide, h.1, h.2⟩

/-- Claim C5: the release path preserves the stored representation of the
quantity: a string-typed `boxesImpounded` is written back as the string
rendering of the remainder, and a number-typed one is written back as a
number. -/
theorem c5_representation_preserved (form : Form) (gate : GateState) (inspState : Option Inspection)
    (s : Store) (id : String) (env : Env) (sms : SmsResult) (insp : Inspection) (n : Int)
    (hF : validateForm form id = true)
    (hG : canConfirm gate.ack1 gate.ack2 gate.confirmText inspState = true)
    (hI : s.inspections id = some insp)
    (hP : jsParseInt form.boxesReleased = some n)
    (hLe : n ≤ parseNumber insp.boxesImpounded) :
    (∀ raw, insp.boxesImpounded = some (.str raw) →
      ((handleSubmit noFaults form gate inspState s id env sms).1.inspections id).bind
          Inspection.boxesImpounded =
        some (.str (intToString (parseNumber insp.boxesImpounded - n)))) ∧
    (∀ x, insp.boxesImpounded = some (.num x) →
      ((handleSubmit noFaults form gate inspState s id env sms).1.inspections id).bind
          Inspection.boxesImpounded =
        some (.num (parseNumber insp.boxesImpounded - n))) := by
  rw [handleSubmit_commit form gate inspState s id env sms insp n hF hG hI hP hLe]
  constructor <;> intro v hv <;>
    simp [storeUpdate, storePush, hI, releasePatch, isStringVal, hv]

/-- Witness for claim C5 at a concrete input: a quantity stored as the
string `"20"` is written back as the string rendering of `15` after a
release of 5 (and that string re-reads as `15`). -/
theorem c5_representation_preserved_witness :
    (inspStr ("20")).boxesImpounded = some (.str ("20")) ∧
    ((handleSubmit noFaults (formOf ("5")) gateW (some (inspStr ("20"))) (storeOf (inspStr ("20")))
        ("i1") envW .ok).1.inspections ("i1")).bind Inspection.boxesImpounded =
      some (.str (intToString 15)) ∧
    parseNumber (some (.str (intToString 15))) = 15 := by
  have h := c5_representation_preserved (formOf ("5")) gateW (some (inspStr ("20")))
    (storeOf (inspStr ("20"))) ("i1") envW .ok (inspStr ("20")) 5
    (by decide) (by decide) (by decide) (by decide) (by decide)
  have h2 := h.1 ("20") rfl
  exact ⟨rfl, by simpa using h2, by decide⟩

/-- Claim C7: an SMS failure after the commit never undoes it: the store
after a failed notification attempt equals the store after a successful
one, the operator sees the distinct saved-but-not-notified success outcome
(not a transaction failure), and the next read of the inspection reflects
the committed quantity regardless of the notification outcome. -/
theorem c7_sms_failure_keeps_commit (form : Form) (gate : GateState) (inspState : Option Inspection)
    (s : Store) (id : String) (env : Env) (insp : Inspection) (n : Int)
    (hF : validateForm form id = true)
    (hG : canConfirm gate.ack1 gate.ack2 gate.confirmText inspState = true)
    (hI : s.inspections id = some insp)
    (hP : jsParseInt form.boxesReleased = some n)
    (hLe : n ≤ parseNumber insp.boxesImpounded) :
    (handleSubmit noFaults form gate inspState s id env .fail).1 =
      (handleSubmit noFaults form gate inspState s id env .ok).1 ∧
    (handleSubmit noFaults form gate inspState s id env .fail).2 =
      .success smsFailMsg
        (if parseNumber insp.boxesImpounded - n = 0 then "Completed" else "Pending Review") ∧
    smsFailMsg ≠ smsOkMsg ∧
    (∀ sms, parseNumber
        (((handleSubmit noFaults form gate inspState s id env sms).1.inspections id).bind
          Inspection.boxesImpounded) = parseNumber insp.boxesImpounded - n) := by
  refine ⟨?_, ?_, by decide, ?_⟩
  · rw [handleSubmit_commit form gate inspState s id env .fail insp n hF hG hI hP hLe,
      handleSubmit_commit form gate inspState s id env .ok insp n hF hG hI hP hLe]
  · rw [handleSubmit_commit form gate inspState s id env .fail insp n hF hG hI hP hLe]
  · intro sms
    rw [handleSubmit_commit form gate inspState s id env sms insp n hF hG hI hP hLe]
    simp only [storeUpdate, storePush, if_pos rfl, hI, Option.getD_some, Option.bind_some,
      releasePatch]
    by_cases hws : isStringVal insp.boxesImpounded
    · rw [if_pos hws]
      exact parseNumber_str_intToString _ (by omega)
    · rw [if_neg hws]
      rfl

/-- Witness for claim C7 at a concrete input: with the SMS transport
failing, releasing 5 of 20 still commits (remainder 15) and reports the
saved-but-not-notified outcome. -/
theorem c7_sms_failure_keeps_commit_witness :
    (handleSubmit noFaults (formOf ("5")) gateW (some (inspNum 20)) (storeOf (inspNum 20))
        ("i1") envW .fail).1 =
      (handleSubmit noFaults (formOf ("5")) gateW (some (inspNum 20)) (storeOf (inspNum 20))
        ("i1") envW .ok).1 ∧
    (handleSubmit noFaults (formOf ("5")) gateW (some (inspNum 20)) (storeOf (inspNum 20))
        ("i1") envW .fail).2 = .success smsFailMsg ("Pending Review") ∧
    parseNumber (((handleSubmit noFaults (formOf ("5")) gateW (some (inspNum 20))
        (storeOf (inspNum 20)) ("i1") envW .fail).1.inspections ("i1")).bind
        Inspection.boxesImpounded) = 15 := by
  have h := c7_sms_failure_keeps_commit (formOf ("5")) gateW (some (inspNum 20))
    (storeOf (inspNum 20)) ("i1") envW (inspNum 20) 5
    (by decide) (by decide) (by decide) (by decide) (by decide)
  exact ⟨h.1, by simpa using h.2.1, by simpa using h.2.2.2 .fail⟩

/-- Modelled from the spec's words for claim C6: the confirmation rule as
the claim states it — both acknowledgement flags set and the typed
confirmation text equal, case-insensitively, to the literal `RELEASE` or to
the inspection's serial number (no trimming, no non-empty requirement). -/
def confirmRuleClaim (ack1 ack2 : Bool) (typed serial : String) : Bool :=
  ack1 && ack2 && ((jsToLower typed == jsToLower ("RELEASE")) || (jsToLower typed == jsToLower serial))

/-- Counterexample to claim C6 as stated: with both flags set and the typed
text `" release "` (surrounding whitespace), the claim's rule rejects the
text — it equals neither `RELEASE` nor the serial `SN-9` case-insensitively
— yet the code's gate passes, the commit path is entered and the release
succeeds, because the source trims the typed text before comparing. -/
theorem c6_counterexample_trimmed_text :
    confirmRuleClaim true true (" release ") ("SN-9") = false ∧
    (inspNum 20).serialNumber = some ("SN-9") ∧
    (handleSubmit noFaults (formOf ("5"))
        { ack1 := true, ack2 := true, confirmText := " release " }
        (some (inspNum 20)) (storeOf (inspNum 20)) ("i1") envW .ok).2 =
      .success smsOkMsg ("Pending Review") := by
  decide

/-- Claim C6 as amended: a release submission is blocked — the store is
untouched and the handler stops at form validation or at the gate — unless
both acknowledgement flags are set and the typed text, after trimming
surrounding whitespace, uppercases to the literal `RELEASE` or matches the
inspection's trimmed, non-empty serial number case-insensitively. -/
theorem c6_gate_blocks_commit (flt : Faults) (form : Form) (gate : GateState)
    (inspState : Option Inspection) (s : Store) (id : String) (env : Env) (sms : SmsResult)
    (h : ¬ (gate.ack1 = true ∧ gate.ack2 = true ∧
      (jsToUpper (jsTrim gate.confirmText) = "RELEASE" ∨
       (jsTrim ((inspState.bind Inspection.serialNumber).getD "") ≠ "" ∧
        jsToLower (jsTrim gate.confirmText) =
          jsToLower (jsTrim ((inspState.bind Inspection.serialNumber).getD "")))))) :
    (handleSubmit flt form gate inspState s id env sms).1 = s ∧
    ((handleSubmit flt form gate inspState s id env sms).2 = .invalidForm ∨
     (handleSubmit flt form gate inspState s id env sms).2 = .confirmationRequired) := by
  have hc : canConfirm gate.ack1 gate.ack2 gate.confirmText inspState = false := by
    by_contra hcc
    rw [Bool.not_eq_false] at hcc
    simp only [canConfirm, Bool.and_eq_true, Bool.or_eq_true, beq_iff_eq, bne_iff_ne] at hcc
    exact h ⟨hcc.1.1, hcc.1.2, hcc.2⟩
  unfold handleSubmit
  by_cases hv : validateForm form id
  · rw [hv, hc]
    exact ⟨rfl, Or.inr rfl⟩
  · rw [Bool.not_eq_true] at hv
    rw [hv]
    exact ⟨rfl, Or.inl rfl⟩

/-- Witness for amended claim C6 at a concrete input: with the first
acknowledgement flag unset, the submission is blocked and the store is
untouched. -/
theorem c6_gate_blocks_commit_witness :
    (¬ ((false : Bool) = true ∧ (true : Bool) = true ∧
      (jsToUpper (jsTrim ("RELEASE")) = "RELEASE" ∨
       (jsTrim (((some (inspNum 20)).bind Inspection.serialNumber).getD "") ≠ "" ∧
        jsToLower (jsTrim ("RELEASE")) =
          jsToLower (jsTrim (((some (inspNum 20)).bind Inspection.serialNumber).getD "")))))) ∧
    (handleSubmit noFaults (formOf ("5"))
        { ack1 := false, ack2 := true, confirmText := "RELEASE" }
        (some (inspNum 20)) (storeOf (inspNum 20)) ("i1") envW .ok).1 = storeOf (inspNum 20) ∧
    ((handleSubmit noFaults (formOf ("5"))
        { ack1 := false, ack2 := true, confirmText := "RELEASE" }
        (some (inspNum 20)) (storeOf (inspNum 20)) ("i1") envW .ok).2 = .invalidForm ∨
     (handleSubmit noFaults (formOf ("5"))
        { ack1 := false, ack2 := true, confirmText := "RELEASE" }
        (some (inspNum 20)) (storeOf (inspNum 20)) ("i1") envW .ok).2 = .confirmationRequired) := by
  have h := c6_gate_blocks_commit noFaults (formOf ("5"))
    { ack1 := false, ack2 := true, confirmText := "RELEASE" }
    (some (inspNum 20)) (storeOf (inspNum 20)) ("i1") envW .ok (by decide)
  exact ⟨by decide, h.1, h.2⟩

/-! ### The concurrency and atomicity violations (claims C1, C2) and the
unrecorded audit flags (claim C9) -/

/-- The submission context used by the interleaving runs: a release of 6
boxes against inspection `"i1"`. -/
def ctxR6 : OpCtx := { id := "i1", form := formOf ("6"), env := envW }

/-- The racing schedule: both submissions perform their fresh read before
either writes, then each pushes its record and applies its update. -/
def c1RaceRun : TwoOps :=
  runSchedule ctxR6 ctxR6 [true, false, true, true, false, false]
    ⟨storeOf (inspNum 10), .ready, .ready⟩

/-- The serial schedule: the first submission runs to completion before the
second starts. -/
def c1SerialRun : TwoOps :=
  runSchedule ctxR6 ctxR6 [true, true, true, false, false, false]
    ⟨storeOf (inspNum 10), .ready, .ready⟩

/-- Claim C1 is violated by the code: the commit path is an unguarded
read-then-write, so when two submissions of 6 boxes against a quantity of
10 interleave with both reads before either write, BOTH succeed, 12 boxes
are logged as released out of 10, and the stored quantity ends at 4 —
matching no serial order, which (as the serial schedule here shows) yields
exactly one success and one over-release rejection. -/
theorem c1_lost_update_race :
    c1RaceRun.a = .finished (.success 4 ("Pending Review")) ∧
    c1RaceRun.b = .finished (.success 4 ("Pending Review")) ∧
    (c1RaceRun.store.inspections ("i1")).bind Inspection.boxesImpounded = some (.num 4) ∧
    c1RaceRun.store.releases.map ReleasePayload.boxesReleased = [6, 6] ∧
    c1SerialRun.a = .finished (.success 4 ("Pending Review")) ∧
    c1SerialRun.b = .finished (.overRelease 6 4) ∧
    c1SerialRun.store.releases.map ReleasePayload.boxesReleased = [6] := by
  decide

/-- The submit run used for claim C2: the release-record push succeeds and
the subsequent inspection update throws. -/
def c2Run : Store × SubmitResult :=
  handleSubmit ⟨false, false, true⟩ (formOf ("6")) gateW (some (inspNum 10))
    (storeOf (inspNum 10)) ("i1") envW .ok

/-- Claim C2 is violated by the code: the record push and the quantity
update are two independent awaited writes, so a failure of the update after
a successful push surfaces the generic failure alert while leaving an
orphaned release record of 6 boxes with the inspection's quantity and
status untouched — a partial application the claim says can never
happen. -/
theorem c2_orphaned_release_record :
    c2Run.2 = .storeError ∧
    c2Run.1.releases.map ReleasePayload.boxesReleased = [6] ∧
    c2Run.1.inspections ("i1") = some (inspNum 10) := by
  decide

/-- The intake form used for claim C9: SMS requested, five boxes, a contact
phone present. -/
def intakeFormW : IntakeForm :=
  { dateIso := "2026-01-02T03:04:05.000Z", serialNumber := "SN-9", drugshopName := "Shop",
    drugshopContactPhones := "0700123456", boxesImpounded := "5", impoundedBy := "Off",
    sendSms := true }

/-- Claim C9 is violated by the code: after an SMS attempt — successful or
failed — the stored audit flags remain the creation-time `false`/`false`;
the intake path's announced flag patch is an unrelated no-op and the
release path's flag writes are commented out, so no notification outcome is
ever recorded. -/
theorem c9_audit_flags_never_recorded :
    (intakeHandleSubmit intakeFormW envW .ok).2 = "Report submitted and SMS sent." ∧
    (intakeHandleSubmit intakeFormW envW .ok).1.smsAttempted = false ∧
    (intakeHandleSubmit intakeFormW envW .ok).1.smsSuccess = false ∧
    (intakeHandleSubmit intakeFormW envW .fail).2 =
      "Report submitted. SMS delivery failed, please retry later." ∧
    (intakeHandleSubmit intakeFormW envW .fail).1.smsAttempted = false ∧
    (intakeHandleSubmit intakeFormW envW .fail).1.smsSuccess = false := by
  decide

end PharmaSafe
